import Mathlib

/-!
Verification of the NYC taxi trip modeling notebook
(src/core/functions/CopyScripts/Resources/scripts/notebooks/PySpark/pySpark+2.0+modeling+MLADS.ipynb).

The notebook's custom logic is embedded shallowly:
the SQL CASE expression that buckets pickup hours, the two row-level
cleaning filters, and the dataflow of the feature pipeline
(StringIndexer vocabulary fitting, OneHotEncoder, RFormula assembly,
cross-validation fold fitting and model persistence).  The Spark MLlib
operators themselves (StringIndexer, OneHotEncoder, RFormula, save and
load) are external library code not present in the repository; where a
claim depends on their behaviour they are modelled from the
specification's words, and each such definition says so in its doc
comment.
-/

/-- The traffic-time-bins CASE expression of the training path
(cell building taxi_df_train_with_newFeatures):
WHEN pickup_hour <= 6 OR pickup_hour >= 20 THEN Night;
WHEN 7 <= pickup_hour <= 10 THEN AMRush;
WHEN 11 <= pickup_hour <= 15 THEN Afternoon;
WHEN 16 <= pickup_hour <= 19 THEN PMRush; no ELSE branch, so a
non-matching row would get a null, modelled as none. -/
def trafficTimeBinsTrain (pickup_hour : Int) : Option String :=
  if pickup_hour ≤ 6 ∨ pickup_hour ≥ 20 then some "Night"
  else if pickup_hour ≥ 7 ∧ pickup_hour ≤ 10 then some "AMRush"
  else if pickup_hour ≥ 11 ∧ pickup_hour ≤ 15 then some "Afternoon"
  else if pickup_hour ≥ 16 ∧ pickup_hour ≤ 19 then some "PMRush"
  else none

/-- The traffic-time-bins CASE expression of the validation path
(cell building taxi_df_valid_with_newFeatures); textually identical to
the training one. -/
def trafficTimeBinsValid (pickup_hour : Int) : Option String :=
  if pickup_hour ≤ 6 ∨ pickup_hour ≥ 20 then some "Night"
  else if pickup_hour ≥ 7 ∧ pickup_hour ≤ 10 then some "AMRush"
  else if pickup_hour ≥ 11 ∧ pickup_hour ≤ 15 then some "Afternoon"
  else if pickup_hour ≥ 16 ∧ pickup_hour ≤ 19 then some "PMRush"
  else none

/-- One taxi trip row, restricted to the columns the notebook's filters
and formula actually read.  String-typed categorical columns keep their
CSV string values; monetary and distance columns are rationals
(the filters only compare them, never round). -/
structure TaxiRecord where
  vendor_id : String
  rate_code : String
  payment_type : String
  passenger_count : Int
  trip_time_in_secs : Int
  trip_distance : ℚ
  fare_amount : ℚ
  tip_amount : ℚ
  pickup_hour : Int
  weekday : Int
deriving DecidableEq, Repr

/-- The training-path row filter:
taxi_df_train_cleaned.filter of passenger_count > 0 and passenger_count < 8. -/
def trainKeep (r : TaxiRecord) : Bool :=
  decide (r.passenger_count > 0) && decide (r.passenger_count < 8)

/-- taxi_df_train_cleaned: the rows surviving the training cleaning filter. -/
def cleanTrain (d : List TaxiRecord) : List TaxiRecord :=
  d.filter trainKeep

/-- The validation-path row filter (taxi_df_valid_cleaned):
passenger_count > 0 and passenger_count < 8 AND payment_type in (CSH, CRD)
AND tip_amount >= 0 AND tip_amount < 30 AND fare_amount >= 1 AND
fare_amount < 200 AND trip_distance > 0 AND trip_distance < 100 AND
trip_time_in_secs > 30 AND trip_time_in_secs < 7200. -/
def validKeep (r : TaxiRecord) : Bool :=
  decide (r.passenger_count > 0) && decide (r.passenger_count < 8) &&
  (r.payment_type == "CSH" || r.payment_type == "CRD") &&
  decide (r.tip_amount ≥ 0) && decide (r.tip_amount < 30) &&
  decide (r.fare_amount ≥ 1) && decide (r.fare_amount < 200) &&
  decide (r.trip_distance > 0) && decide (r.trip_distance < 100) &&
  decide (r.trip_time_in_secs > 30) && decide (r.trip_time_in_secs < 7200)

/-- taxi_df_valid_cleaned: the rows surviving the validation cleaning filter. -/
def cleanValid (d : List TaxiRecord) : List TaxiRecord :=
  d.filter validKeep

/-- Modelled from the spec: the StringIndexer fit step (sI1 to sI4) is
external Spark MLlib code absent from the repository; the spec describes
the fitted vocabulary as the column's distinct observed values ordered by
descending frequency with ties broken by first-seen order.  This strict
ordering is expressed as a reflexive total order used to sort the
distinct values: a comes no later than b when a is strictly more
frequent, or equally frequent and first seen no later. -/
def vocabLE (data : List String) (a b : String) : Prop :=
  data.count b < data.count a ∨
    (data.count a = data.count b ∧ data.indexOf a ≤ data.indexOf b)

instance (data : List String) : DecidableRel (vocabLE data) := fun _ _ => by
  unfold vocabLE
  exact inferInstance

/-- The distinct values of a column in first-seen order. -/
def firstSeenDistinct : List String → List String
  | [] => []
  | x :: xs => x :: (firstSeenDistinct xs).filter (fun y => y != x)

/-- Modelled from the spec: the vocabulary a StringIndexer fits on a
column, as described by the spec — the distinct observed values sorted
by descending frequency, ties broken by first occurrence.  A value's
index is its position in this list. -/
def fitVocabulary (data : List String) : List String :=
  List.insertionSort (vocabLE data) (firstSeenDistinct data)

/-- Modelled from the spec: the StringIndexer transform step maps a
value to its index in the fitted vocabulary. -/
def stringIndexerTransform (vocab : List String) (v : String) : Nat :=
  vocab.indexOf v

/-- Modelled from the spec: OneHotEncoder with dropLast=False (the one
configuration flag used in the notebook) sends index i under a
vocabulary of size n to the length-n indicator vector of position i,
with no last-position collapsing. -/
def oneHotEncode (n i : Nat) : List ℚ :=
  (List.range n).map (fun j => if j = i then 1 else 0)

/-- A row of taxi_df_train_with_newFeatures (or its validation
analogue): a cleaned row together with the TrafficTimeBins column added
by the CASE expression.  The SQL SELECT leaves the column null (none)
when no WHEN branch matches, in which case the row cannot carry a bins
label. -/
structure BinnedTaxiRecord where
  base : TaxiRecord
  trafficTimeBins : String
deriving DecidableEq, Repr

/-- Adding the TrafficTimeBins column on the training path: the record
gains the CASE expression's label when one is produced. -/
def addTrafficTimeBinsTrain (r : TaxiRecord) : Option BinnedTaxiRecord :=
  (trafficTimeBinsTrain r.pickup_hour).map (fun l => ⟨r, l⟩)

/-- The four vocabularies fitted by the pipeline stages sI1 to sI4, for
vendor_id, rate_code, payment_type and TrafficTimeBins. -/
structure Vocabularies where
  vendorVocab : List String
  rateVocab : List String
  paymentVocab : List String
  binsVocab : List String
deriving DecidableEq, Repr

/-- Fitting all four StringIndexer stages on a dataset, as
Pipeline(stages=[sI1, en1, sI2, en2, sI3, en3, sI4, en4]).fit does. -/
def fitVocabularies (d : List BinnedTaxiRecord) : Vocabularies where
  vendorVocab := fitVocabulary (d.map (fun b => b.base.vendor_id))
  rateVocab := fitVocabulary (d.map (fun b => b.base.rate_code))
  paymentVocab := fitVocabulary (d.map (fun b => b.base.payment_type))
  binsVocab := fitVocabulary (d.map (fun b => b.trafficTimeBins))

/-- Modelled from the spec only as far as RFormula's documented term
handling goes (RFormula is external Spark MLlib code): every term of the
notebook's formula string tip_amount ~ paymentIndex + vendorIndex +
rateIndex + TrafficTimeBinsIndex + pickup_hour + weekday +
passenger_count + trip_time_in_secs + trip_distance + fare_amount is a
numeric (double) column — the *Index columns are StringIndexer outputs —
so RFormula passes each through unchanged and the features vector is
these ten values in formula order. -/
def rFormulaFeatures (vs : Vocabularies) (b : BinnedTaxiRecord) : List ℚ :=
  [ (stringIndexerTransform vs.paymentVocab b.base.payment_type : ℚ),
    (stringIndexerTransform vs.vendorVocab b.base.vendor_id : ℚ),
    (stringIndexerTransform vs.rateVocab b.base.rate_code : ℚ),
    (stringIndexerTransform vs.binsVocab b.trafficTimeBins : ℚ),
    (b.base.pickup_hour : ℚ), (b.base.weekday : ℚ),
    (b.base.passenger_count : ℚ), (b.base.trip_time_in_secs : ℚ),
    b.base.trip_distance, b.base.fare_amount ]

/-- The categorical part of the assembled vector: the four StringIndexer
index values, in formula order. -/
def categoricalIndexSegment (vs : Vocabularies) (b : BinnedTaxiRecord) : List ℚ :=
  [ (stringIndexerTransform vs.paymentVocab b.base.payment_type : ℚ),
    (stringIndexerTransform vs.vendorVocab b.base.vendor_id : ℚ),
    (stringIndexerTransform vs.rateVocab b.base.rate_code : ℚ),
    (stringIndexerTransform vs.binsVocab b.trafficTimeBins : ℚ) ]

/-- The raw numeric part of the assembled vector, in formula order. -/
def numericSegment (b : BinnedTaxiRecord) : List ℚ :=
  [ (b.base.pickup_hour : ℚ), (b.base.weekday : ℚ),
    (b.base.passenger_count : ℚ), (b.base.trip_time_in_secs : ℚ),
    b.base.trip_distance, b.base.fare_amount ]

/-- The feature vector shape the spec's data model asserts (written from
the spec's words, for comparison with rFormulaFeatures): the ordered
concatenation of the one-hot encoded categorical segments and the raw
numeric fields. -/
def specFeatureVector (vs : Vocabularies) (b : BinnedTaxiRecord) : List ℚ :=
  oneHotEncode vs.paymentVocab.length (stringIndexerTransform vs.paymentVocab b.base.payment_type) ++
  oneHotEncode vs.vendorVocab.length (stringIndexerTransform vs.vendorVocab b.base.vendor_id) ++
  oneHotEncode vs.rateVocab.length (stringIndexerTransform vs.rateVocab b.base.rate_code) ++
  oneHotEncode vs.binsVocab.length (stringIndexerTransform vs.binsVocab b.trafficTimeBins) ++
  numericSegment b

/-- Modelled from the spec: CrossValidator's fold assignment is external
Spark code; folds are modelled positionally — with numFolds = k, row i
is held out in fold (i % k).  The training partition of fold j is every
row not held out in fold j. -/
def foldTrainingPart {α : Type} (k j : Nat) (d : List α) : List α :=
  (d.enum.filter (fun p => p.1 % k != j)).map Prod.snd

/-- The held-out partition of fold j under the positional fold model. -/
def foldHeldOutPart {α : Type} (k j : Nat) (d : List α) : List α :=
  (d.enum.filter (fun p => p.1 % k == j)).map Prod.snd

/-- What is fitted for one cross-validation fold: the category
vocabularies in effect and the assembled feature vectors of the fold's
training rows, from which the fold-local regressor is fit. -/
structure FoldFit where
  vocabs : Vocabularies
  trainFeatures : List (List ℚ)
deriving DecidableEq, Repr

/-- The fold-j fit the notebook's dataflow produces: encodedFinal is
computed before sampling, splitting and crossval.fit, so the
StringIndexer vocabularies are fit once on the whole dataset, while the
estimator pipeline (regFormula, featureIndexer, randForest) is refit per
fold on the fold's training partition of the already-encoded rows. -/
def foldFitNotebook (k j : Nat) (d : List BinnedTaxiRecord) : FoldFit :=
  ⟨fitVocabularies d, (foldTrainingPart k j d).map (rFormulaFeatures (fitVocabularies d))⟩

/-- A regression tree of the fitted random forest: leaves carry a
predicted value, inner nodes test one feature against a threshold. -/
inductive RTree : Type where
  | leaf (v : ℚ)
  | node (f : Nat) (t : ℚ) (l r : RTree)
deriving DecidableEq, Repr

/-- Evaluating one regression tree on an assembled feature vector. -/
def RTree.predictTree : RTree → List ℚ → ℚ
  | RTree.leaf v, _ => v
  | RTree.node f t l r, x => if x.getD f 0 ≤ t then l.predictTree x else r.predictTree x

/-- Modelled from the spec: the fitted pipeline the notebook persists
(model.save / PipelineModel.load, external Spark code) is an opaque
artifact bundling the vocabularies, the vector assembly layout and the
learned regressor parameters; it is modelled as the four vocabularies
together with the forest's trees. -/
structure FittedPipeline where
  vocabs : Vocabularies
  trees : List RTree
deriving DecidableEq, Repr

/-- A fitted pipeline's prediction on one record: assemble the features
with its vocabularies and average the tree predictions. -/
def FittedPipeline.predict (m : FittedPipeline) (b : BinnedTaxiRecord) : ℚ :=
  ((m.trees.map (fun t => t.predictTree (rFormulaFeatures m.vocabs b))).sum) /
    (m.trees.length : ℚ)

/-- Tokens of the persisted artifact. -/
inductive ModelTok : Type where
  | nat (n : Nat)
  | str (s : String)
  | leaf (v : ℚ)
  | node (f : Nat) (t : ℚ)
deriving DecidableEq, Repr

/-- Preorder serialization of one regression tree. -/
def encodeTree : RTree → List ModelTok
  | RTree.leaf v => [ModelTok.leaf v]
  | RTree.node f t l r => ModelTok.node f t :: (encodeTree l ++ encodeTree r)

/-- Parsing one regression tree back from a token stream; fuel bounds
the recursion depth. -/
def decodeTree : Nat → List ModelTok → Option (RTree × List ModelTok)
  | 0, _ => none
  | _ + 1, ModelTok.leaf v :: rest => some (RTree.leaf v, rest)
  | fuel + 1, ModelTok.node f t :: rest =>
    match decodeTree fuel rest with
    | none => none
    | some (l, r1) =>
      match decodeTree fuel r1 with
      | none => none
      | some (r, r2) => some (RTree.node f t l r, r2)
  | _ + 1, ModelTok.nat _ :: _ => none
  | _ + 1, ModelTok.str _ :: _ => none
  | _ + 1, [] => none

/-- Serialization of one vocabulary: its length, then its values. -/
def encodeVocab (v : List String) : List ModelTok :=
  ModelTok.nat v.length :: v.map ModelTok.str

/-- Parsing n string tokens back. -/
def decodeStrs : Nat → List ModelTok → Option (List String × List ModelTok)
  | 0, rest => some ([], rest)
  | n + 1, ModelTok.str s :: rest =>
    match decodeStrs n rest with
    | none => none
    | some (v, r1) => some (s :: v, r1)
  | _ + 1, _ => none

/-- Parsing one vocabulary back. -/
def decodeVocab : List ModelTok → Option (List String × List ModelTok)
  | ModelTok.nat n :: rest => decodeStrs n rest
  | _ => none

/-- Parsing n regression trees back. -/
def decodeTrees (fuel : Nat) : Nat → List ModelTok → Option (List RTree × List ModelTok)
  | 0, rest => some ([], rest)
  | n + 1, rest =>
    match decodeTree fuel rest with
    | none => none
    | some (t, r1) =>
      match decodeTrees fuel n r1 with
      | none => none
      | some (ts, r2) => some (t :: ts, r2)

/-- Modelled from the spec: model.save, the persisted artifact of a
fitted pipeline — its four vocabularies then its trees. -/
def FittedPipeline.save (m : FittedPipeline) : List ModelTok :=
  encodeVocab m.vocabs.vendorVocab ++ encodeVocab m.vocabs.rateVocab ++
  encodeVocab m.vocabs.paymentVocab ++ encodeVocab m.vocabs.binsVocab ++
  (ModelTok.nat m.trees.length :: (m.trees.map encodeTree).flatten)

/-- Modelled from the spec: PipelineModel.load, recovering a fitted
pipeline from a persisted artifact; fails on a malformed artifact. -/
def FittedPipeline.load (toks : List ModelTok) : Option FittedPipeline :=
  match decodeVocab toks with
  | none => none
  | some (vv, t1) =>
    match decodeVocab t1 with
    | none => none
    | some (rv, t2) =>
      match decodeVocab t2 with
      | none => none
      | some (pv, t3) =>
        match decodeVocab t3 with
        | none => none
        | some (bv, t4) =>
          match t4 with
          | ModelTok.nat n :: t5 =>
            match decodeTrees toks.length n t5 with
            | some (ts, []) => some ⟨⟨vv, rv, pv, bv⟩, ts⟩
            | _ => none
          | _ => none

/-- A concrete cleaned row, parametrised by passenger count, used by
concrete witnesses. -/
def sampleRecord (pc : Int) : TaxiRecord :=
  ⟨"VTS", "1", "CRD", pc, 600, 2, 10, 1, 9, 3⟩

/-- Concrete vocabularies of size two per column, used by the feature
vector counterexample. -/
def cexVocabs : Vocabularies :=
  ⟨["VTS", "CMT"], ["1", "2"], ["CRD", "CSH"], ["Night", "AMRush"]⟩

/-- A concrete binned row used by the feature vector counterexample. -/
def cexRecord : BinnedTaxiRecord :=
  ⟨sampleRecord 1, "Night"⟩

/-- Claim C4: for every integer hour h in the range 0 to 23 the
time-bucket CASE expression returns exactly one of the four labels
Night, AMRush, Afternoon and PMRush: some label among the four is
produced (the four hour ranges jointly cover 0..23), and no hour
receives two distinct labels (the four preimage sets are pairwise
disjoint). -/
theorem trafficTimeBins_partition (h : Int) (h0 : 0 ≤ h) (h23 : h ≤ 23) :
    (∃ l, l ∈ (["Night", "AMRush", "Afternoon", "PMRush"] : List String) ∧
      trafficTimeBinsTrain h = some l) ∧
    (∀ l1 l2 : String, l1 ≠ l2 →
      ¬(trafficTimeBinsTrain h = some l1 ∧ trafficTimeBinsTrain h = some l2)) := by
  constructor
  · interval_cases h <;>
      first
      | exact ⟨"Night", by decide, rfl⟩
      | exact ⟨"AMRush", by decide, rfl⟩
      | exact ⟨"Afternoon", by decide, rfl⟩
      | exact ⟨"PMRush", by decide, rfl⟩
  · intro l1 l2 hne he
    exact hne (Option.some_inj.mp (he.1.symm.trans he.2))

/-- Witness for claim C4 at the concrete hour 5. -/
theorem trafficTimeBins_partition_witness :
    (0 : Int) ≤ 5 ∧ (5 : Int) ≤ 23 ∧
    ((∃ l, l ∈ (["Night", "AMRush", "Afternoon", "PMRush"] : List String) ∧
      trafficTimeBinsTrain 5 = some l) ∧
    (∀ l1 l2 : String, l1 ≠ l2 →
      ¬(trafficTimeBinsTrain 5 = some l1 ∧ trafficTimeBinsTrain 5 = some l2))) :=
  ⟨by decide, by decide, trafficTimeBins_partition 5 (by decide) (by decide)⟩

/-- Claim C5: the time-bucket classifier maps the ten concrete hours of
the spec exactly as stated. -/
theorem trafficTimeBins_concrete_cases :
    trafficTimeBinsTrain 0 = some "Night" ∧
    trafficTimeBinsTrain 6 = some "Night" ∧
    trafficTimeBinsTrain 7 = some "AMRush" ∧
    trafficTimeBinsTrain 10 = some "AMRush" ∧
    trafficTimeBinsTrain 11 = some "Afternoon" ∧
    trafficTimeBinsTrain 15 = some "Afternoon" ∧
    trafficTimeBinsTrain 16 = some "PMRush" ∧
    trafficTimeBinsTrain 19 = some "PMRush" ∧
    trafficTimeBinsTrain 20 = some "Night" ∧
    trafficTimeBinsTrain 23 = some "Night" := by
  decide

/-- Counterexample for claim C10: at hour 24 (and at hour -1) the CASE
expression's first branch pickup_hour <= 6 OR pickup_hour >= 20 already
matches, so the TrafficTimeBins column is Night, not null, on both the
training and the validation path. -/
theorem trafficTimeBins_out_of_range_counterexample :
    trafficTimeBinsTrain 24 = some "Night" ∧
    ¬ trafficTimeBinsTrain 24 = none ∧
    trafficTimeBinsTrain (-1) = some "Night" ∧
    trafficTimeBinsValid 24 = some "Night" ∧
    trafficTimeBinsValid (-1) = some "Night" := by
  decide

/-- Claim C10 as amended: the CASE expression has no ELSE branch, but
for every hour outside 0..23 its first branch matches, so the
TrafficTimeBins column is Night — never null, never a fifth label, and
never an error — identically on the training and validation paths. -/
theorem trafficTimeBins_out_of_range (h : Int) (hout : h < 0 ∨ 23 < h) :
    trafficTimeBinsTrain h = some "Night" ∧
    trafficTimeBinsValid h = some "Night" := by
  have hc : h ≤ 6 ∨ h ≥ 20 := by omega
  simp only [trafficTimeBinsTrain, trafficTimeBinsValid]
  rw [if_pos hc]
  exact ⟨rfl, rfl⟩

/-- Witness for the amended claim C10 at the concrete hour 24. -/
theorem trafficTimeBins_out_of_range_witness :
    ((24 : Int) < 0 ∨ (23 : Int) < 24) ∧
    (trafficTimeBinsTrain 24 = some "Night" ∧
     trafficTimeBinsValid 24 = some "Night") :=
  ⟨Or.inr (by decide), trafficTimeBins_out_of_range 24 (Or.inr (by decide))⟩

/-- Claim C7: the training cleaning filter passenger_count > 0 and
passenger_count < 8 excludes passenger count 0, includes 7, excludes 8,
and every surviving record has passenger count between 1 and 7. -/
theorem train_cleaning_passenger_count :
    (∀ r : TaxiRecord, r.passenger_count = 0 → trainKeep r = false) ∧
    (∀ r : TaxiRecord, r.passenger_count = 7 → trainKeep r = true) ∧
    (∀ r : TaxiRecord, r.passenger_count = 8 → trainKeep r = false) ∧
    (∀ (d : List TaxiRecord) (r : TaxiRecord), r ∈ cleanTrain d →
      1 ≤ r.passenger_count ∧ r.passenger_count ≤ 7) := by
  refine ⟨?_, ?_, ?_, ?_⟩
  · intro r h
    simp [trainKeep, h]
  · intro r h
    simp [trainKeep, h]
  · intro r h
    simp [trainKeep, h]
  · intro d r hr
    have hk := (List.mem_filter.mp hr).2
    simp only [trainKeep, Bool.and_eq_true, decide_eq_true_eq] at hk
    omega

/-- Witness for claim C7 on concrete records with passenger counts 0, 7
and 8. -/
theorem train_cleaning_passenger_count_witness :
    trainKeep (sampleRecord 0) = false ∧
    trainKeep (sampleRecord 7) = true ∧
    trainKeep (sampleRecord 8) = false ∧
    (1 ≤ (sampleRecord 7).passenger_count ∧ (sampleRecord 7).passenger_count ≤ 7) :=
  ⟨train_cleaning_passenger_count.1 _ rfl,
   train_cleaning_passenger_count.2.1 _ rfl,
   train_cleaning_passenger_count.2.2.1 _ rfl,
   train_cleaning_passenger_count.2.2.2 [sampleRecord 7] _ (by decide)⟩

/-- Claim C8: a record survives the validation cleaning filter exactly
when it came from the input and satisfies all of: passenger count in
1..7, payment type CSH (cash) or CRD (credit), tip amount in [0,30),
fare amount in [1,200), trip distance in (0,100) and trip time in
(30,7200) seconds; so every survivor satisfies the invariant and every
violator is excluded. -/
theorem valid_cleaning_invariant (d : List TaxiRecord) (r : TaxiRecord) :
    r ∈ cleanValid d ↔ r ∈ d ∧
      (1 ≤ r.passenger_count ∧ r.passenger_count ≤ 7 ∧
       (r.payment_type = "CSH" ∨ r.payment_type = "CRD") ∧
       0 ≤ r.tip_amount ∧ r.tip_amount < 30 ∧
       1 ≤ r.fare_amount ∧ r.fare_amount < 200 ∧
       0 < r.trip_distance ∧ r.trip_distance < 100 ∧
       30 < r.trip_time_in_secs ∧ r.trip_time_in_secs < 7200) := by
  rw [cleanValid, List.mem_filter]
  have hpc : (0 < r.passenger_count ∧ r.passenger_count < 8) ↔
      (1 ≤ r.passenger_count ∧ r.passenger_count ≤ 7) := by omega
  simp only [validKeep, Bool.and_eq_true, Bool.or_eq_true, decide_eq_true_eq,
    beq_iff_eq]
  tauto

/-- Counterexample for claim C2: with two-value vocabularies for every
categorical column, the vector the notebook's formula assembles (the
four index values followed by the six numeric fields, length 10) is not
the concatenation of one-hot segments with the numeric fields (length
14): the one-hot columns the pipeline computes never enter the feature
vector. -/
theorem rformula_not_one_hot_counterexample :
    specFeatureVector cexVocabs cexRecord ≠ rFormulaFeatures cexVocabs cexRecord ∧
    (rFormulaFeatures cexVocabs cexRecord).length = 10 ∧
    (specFeatureVector cexVocabs cexRecord).length = 14 := by
  decide

/-- Claim C2 as amended: for every record the assembled feature vector
is the ordered concatenation of the encoded categorical index values
(not one-hot segments) and the raw numeric fields, and its length is
fixed at 10 once the formula is fixed (independently of the
vocabularies). -/
theorem rformula_feature_vector_shape (vs : Vocabularies) (b : BinnedTaxiRecord) :
    rFormulaFeatures vs b = categoricalIndexSegment vs b ++ numericSegment b ∧
    (rFormulaFeatures vs b).length = 10 :=
  ⟨rfl, rfl⟩

/-- Claim C6: one-hot encoding of a vocabulary value (index i of a
vocabulary of size n, no drop-last collapsing) is a vector of length n
whose position i holds 1 and whose every other position holds 0. -/
theorem one_hot_exactly_one_set (n i : Nat) (hi : i < n) :
    (oneHotEncode n i).length = n ∧
    (oneHotEncode n i).getD i 0 = 1 ∧
    (∀ j, j < n → j ≠ i → (oneHotEncode n i).getD j 0 = 0) := by
  refine ⟨by simp [oneHotEncode], ?_, ?_⟩
  · simp [oneHotEncode, List.getD_eq_getElem?_getD, List.getElem?_range, hi]
  · intro j hj hne
    simp [oneHotEncode, List.getD_eq_getElem?_getD, List.getElem?_range, hj, hne]

/-- Witness for claim C6 with a vocabulary of size 3 and index 1. -/
theorem one_hot_exactly_one_set_witness :
    1 < 3 ∧
    ((oneHotEncode 3 1).length = 3 ∧
     (oneHotEncode 3 1).getD 1 0 = 1 ∧
     (∀ j, j < 3 → j ≠ 1 → (oneHotEncode 3 1).getD j 0 = 0)) :=
  ⟨by decide, one_hot_exactly_one_set 3 1 (by decide)⟩

theorem mem_firstSeenDistinct (v : String) (l : List String) :
    v ∈ firstSeenDistinct l ↔ v ∈ l := by
  induction l with
  | nil => simp [firstSeenDistinct]
  | cons x xs ih =>
    simp only [firstSeenDistinct, List.mem_cons, List.mem_filter, bne_iff_ne, ne_eq, ih]
    by_cases hvx : v = x <;> simp [hvx]

theorem nodup_firstSeenDistinct (l : List String) : (firstSeenDistinct l).Nodup := by
  induction l with
  | nil => simp [firstSeenDistinct]
  | cons x xs ih =>
    simp only [firstSeenDistinct, List.nodup_cons]
    refine ⟨?_, ih.filter _⟩
    intro hmem
    have := (List.mem_filter.mp hmem).2
    simp at this

theorem vocabLE_total (data : List String) (a b : String) :
    vocabLE data a b ∨ vocabLE data b a := by
  unfold vocabLE
  omega

theorem vocabLE_trans (data : List String) (a b c : String) :
    vocabLE data a b → vocabLE data b c → vocabLE data a c := by
  unfold vocabLE
  omega

theorem fitVocabulary_sorted (data : List String) :
    List.Sorted (vocabLE data) (fitVocabulary data) := by
  haveI : IsTotal String (vocabLE data) := ⟨vocabLE_total data⟩
  haveI : IsTrans String (vocabLE data) := ⟨vocabLE_trans data⟩
  exact List.sorted_insertionSort _ _

/-- Claim C3: the fitted vocabulary lists exactly the distinct values
observed in the data, each value appearing once (so positions are the
dense indices 0..n-1 and every observed value's index is below n), and
earlier positions have strictly greater frequency, or equal frequency
and strictly earlier first occurrence in the data. -/
theorem stringIndexer_vocabulary (data : List String) :
    (∀ v, v ∈ fitVocabulary data ↔ v ∈ data) ∧
    (fitVocabulary data).Nodup ∧
    (∀ v, v ∈ data →
      stringIndexerTransform (fitVocabulary data) v < (fitVocabulary data).length) ∧
    List.Pairwise (fun a b => data.count b < data.count a ∨
      (data.count a = data.count b ∧ data.indexOf a < data.indexOf b))
      (fitVocabulary data) := by
  have hperm : List.Perm (fitVocabulary data) (firstSeenDistinct data) :=
    List.perm_insertionSort _ _
  have hmem : ∀ v, v ∈ fitVocabulary data ↔ v ∈ data := by
    intro v
    rw [hperm.mem_iff, mem_firstSeenDistinct]
  have hnd : (fitVocabulary data).Nodup := hperm.nodup_iff.mpr (nodup_firstSeenDistinct data)
  refine ⟨hmem, hnd, ?_, ?_⟩
  · intro v hv
    exact List.indexOf_lt_length.mpr ((hmem v).mpr hv)
  · have hnd' : List.Pairwise (fun a b : String => a ≠ b) (fitVocabulary data) := hnd
    refine List.Pairwise.imp_of_mem ?_ ((fitVocabulary_sorted data).and hnd')
    intro a b ha hb hab
    obtain ⟨hle, hne⟩ := hab
    rcases hle with hlt | ⟨heq, hidx⟩
    · exact Or.inl hlt
    · refine Or.inr ⟨heq, lt_of_le_of_ne hidx ?_⟩
      intro hidxeq
      exact hne ((List.indexOf_inj ((hmem a).mp ha) ((hmem b).mp hb)).mp hidxeq)

/-- A concrete binned row with a given vendor, used by the
cross-validation leakage evaluation. -/
def cvRow (vendor : String) : BinnedTaxiRecord :=
  ⟨⟨vendor, "1", "CRD", 1, 600, 2, 10, 1, 9, 3⟩, "Night"⟩

/-- A three-row dataset whose fold-0 held-out row (position 0, with
numFolds = 3) has vendor a. -/
def cvDataA : List BinnedTaxiRecord :=
  [cvRow "a", cvRow "b", cvRow "b"]

/-- The same dataset with only the fold-0 held-out row changed, to
vendor c; the fold-0 training partition (positions 1 and 2) is
untouched. -/
def cvDataB : List BinnedTaxiRecord :=
  [cvRow "c", cvRow "b", cvRow "b"]

/-- Claim C1, evaluated at the failing input: cvDataA and cvDataB agree
on fold 0's training partition and differ only on its held-out
partition, yet the notebook's dataflow — which fits the StringIndexer
vocabularies once on the whole dataset before crossval.fit — gives
fold 0 different vendor vocabularies and hence different fold fits,
so the fold's vocabularies do depend on its held-out partition. -/
theorem crossval_vocabulary_leakage :
    foldTrainingPart 3 0 cvDataA = foldTrainingPart 3 0 cvDataB ∧
    foldHeldOutPart 3 0 cvDataA ≠ foldHeldOutPart 3 0 cvDataB ∧
    (foldFitNotebook 3 0 cvDataA).vocabs ≠ (foldFitNotebook 3 0 cvDataB).vocabs ∧
    foldFitNotebook 3 0 cvDataA ≠ foldFitNotebook 3 0 cvDataB := by
  decide

theorem decodeTree_encodeTree (t : RTree) : ∀ (fuel : Nat) (rest : List ModelTok),
    (encodeTree t).length ≤ fuel →
    decodeTree fuel (encodeTree t ++ rest) = some (t, rest) := by
  induction t with
  | leaf v =>
    intro fuel rest hf
    cases fuel with
    | zero => simp [encodeTree] at hf
    | succ fuel => rfl
  | node f th l r ihl ihr =>
    intro fuel rest hf
    cases fuel with
    | zero => simp [encodeTree] at hf
    | succ fuel =>
      have hlen : (encodeTree l).length ≤ fuel ∧ (encodeTree r).length ≤ fuel := by
        simp only [encodeTree, List.length_cons, List.length_append] at hf
        omega
      have e1 := ihl fuel (encodeTree r ++ rest) hlen.1
      have e2 := ihr fuel rest hlen.2
      simp only [encodeTree, List.cons_append, List.append_assoc]
      simp only [decodeTree, e1, e2]

theorem decodeStrs_encode (v : List String) : ∀ rest : List ModelTok,
    decodeStrs v.length (v.map ModelTok.str ++ rest) = some (v, rest) := by
  induction v with
  | nil => intro rest; rfl
  | cons s v ih => intro rest; simp [decodeStrs, ih]

theorem decodeVocab_encode (v : List String) (rest : List ModelTok) :
    decodeVocab (encodeVocab v ++ rest) = some (v, rest) := by
  simp [encodeVocab, decodeVocab, decodeStrs_encode, List.cons_append]

theorem decodeTrees_encode (ts : List RTree) : ∀ (fuel : Nat) (rest : List ModelTok),
    (∀ t ∈ ts, (encodeTree t).length ≤ fuel) →
    decodeTrees fuel ts.length ((ts.map encodeTree).flatten ++ rest) = some (ts, rest) := by
  induction ts with
  | nil => intro fuel rest _; rfl
  | cons t ts ih =>
    intro fuel rest hf
    have e1 := decodeTree_encodeTree t fuel ((ts.map encodeTree).flatten ++ rest)
      (hf t (List.mem_cons_self t ts))
    have e2 := ih fuel rest (fun t' ht' => hf t' (List.mem_cons_of_mem t ht'))
    simp only [List.map_cons, List.flatten_cons, List.length_cons, List.append_assoc]
    simp only [decodeTrees, e1, e2]

/-- Claim C9: persistence round-trip — loading a saved fitted pipeline
recovers it exactly, so the loaded pipeline produces the same prediction
as the original on every record. -/
theorem pipeline_persistence_roundtrip (m : FittedPipeline) :
    FittedPipeline.load (FittedPipeline.save m) = some m ∧
    ∀ b : BinnedTaxiRecord,
      Option.map (fun m2 => FittedPipeline.predict m2 b)
        (FittedPipeline.load (FittedPipeline.save m)) = some (m.predict b) := by
  have hfuel : ∀ t ∈ m.trees, (encodeTree t).length ≤ (FittedPipeline.save m).length := by
    intro t ht
    have h1 : (encodeTree t).length ≤ ((m.trees.map encodeTree).flatten).length := by
      rw [List.length_flatten]
      refine List.single_le_sum (fun x _ => Nat.zero_le x) _ ?_
      rw [List.map_map]
      exact List.mem_map_of_mem _ ht
    have h2 : ((m.trees.map encodeTree).flatten).length ≤ (FittedPipeline.save m).length := by
      simp [FittedPipeline.save, List.length_append]
      omega
    omega
  have hdt : decodeTrees (FittedPipeline.save m).length m.trees.length
      ((m.trees.map encodeTree).flatten) = some (m.trees, []) := by
    have := decodeTrees_encode m.trees (FittedPipeline.save m).length [] hfuel
    simpa using this
  have hsave : FittedPipeline.save m = encodeVocab m.vocabs.vendorVocab ++
      (encodeVocab m.vocabs.rateVocab ++ (encodeVocab m.vocabs.paymentVocab ++
        (encodeVocab m.vocabs.binsVocab ++
          (ModelTok.nat m.trees.length :: (m.trees.map encodeTree).flatten)))) := by
    simp [FittedPipeline.save, List.append_assoc]
  have hload : FittedPipeline.load (FittedPipeline.save m) = some m := by
    rw [FittedPipeline.load]
    rw [show decodeVocab (FittedPipeline.save m) = some (m.vocabs.vendorVocab,
      encodeVocab m.vocabs.rateVocab ++ (encodeVocab m.vocabs.paymentVocab ++
        (encodeVocab m.vocabs.binsVocab ++
          (ModelTok.nat m.trees.length :: (m.trees.map encodeTree).flatten)))) from by
      rw [hsave]; exact decodeVocab_encode _ _]
    simp only [decodeVocab_encode, hdt]
  refine ⟨hload, ?_⟩
  intro b
  rw [hload]
  rfl

/-- Witness for claim C3 on the concrete column data a, b, b: the
vocabulary contains the observed value b and assigns it an index below
the vocabulary size. -/
theorem stringIndexer_vocabulary_witness :
    ("b" ∈ fitVocabulary ["a", "b", "b"] ↔ "b" ∈ ["a", "b", "b"]) ∧
    stringIndexerTransform (fitVocabulary ["a", "b", "b"]) "b" <
      (fitVocabulary ["a", "b", "b"]).length :=
  ⟨(stringIndexer_vocabulary ["a", "b", "b"]).1 "b",
   (stringIndexer_vocabulary ["a", "b", "b"]).2.2.1 "b" (by decide)⟩

/-- Witness for claim C8: a concrete record satisfying every validity
predicate survives the validation cleaning filter. -/
theorem valid_cleaning_invariant_witness :
    sampleRecord 1 ∈ cleanValid [sampleRecord 1] :=
  (valid_cleaning_invariant [sampleRecord 1] (sampleRecord 1)).mpr (by decide)

/-- Witness for the amended claim C2 at the concrete vocabularies and
record of the counterexample. -/
theorem rformula_feature_vector_shape_witness :
    rFormulaFeatures cexVocabs cexRecord =
      categoricalIndexSegment cexVocabs cexRecord ++ numericSegment cexRecord ∧
    (rFormulaFeatures cexVocabs cexRecord).length = 10 :=
  rformula_feature_vector_shape cexVocabs cexRecord

/-- A concrete fitted pipeline with one depth-one tree and one stump,
used as a persistence witness. -/
def samplePipeline : FittedPipeline :=
  ⟨cexVocabs, [RTree.node 0 1 (RTree.leaf 2) (RTree.leaf 3), RTree.leaf 1]⟩

/-- Witness for claim C9 at the concrete sample pipeline. -/
theorem pipeline_persistence_roundtrip_witness :
    FittedPipeline.load (FittedPipeline.save samplePipeline) = some samplePipeline :=
  (pipeline_persistence_roundtrip samplePipeline).1
